import Mathlib

/-!
Shallow embedding of the QuickFuck Brainfuck interpreter library
(`lib/quickfuck.hpp`): the `Brainfuck::DynamicInterpreter` (growable tape)
and `Brainfuck::PerformanceInterpreter` (fixed-width tape) engines.

Conventions of the embedding:
* Byte values (tape cells, the characters of the input and output buffers)
  are `Nat`s kept below 256; every store reduces modulo 256, matching the
  8-bit `char` / `unsigned char` cells of the C++ code.
* C++ operations whose behavior is undefined (pop/top of an empty
  `std::stack`, element access past the end of the storage) are modelled as
  explicit error outcomes whose names end in `UB`.  They are distinct from
  `inputExhausted`, the one `std::range_error` that `step` really throws.
  A thrown/UB step aborts the run; the error carries the engine state at
  the moment of the fault (the C++ code mutates nothing before throwing).
* The `while( position < code.length() )` driver loop is modelled with
  explicit fuel; a `some` result means the loop finished (normally or by a
  throw) within that many iterations, `none` means the fuel ran out.
* `code[position]` uses `std::string::operator[]`, which returns the null
  character at `position == size()`; `List.getD` with default `Char.ofNat 0`
  models this (the driver never calls `step` out of range anyway).
-/

namespace Brainfuck

/-- Outcome tags for a failing `step`.  `inputExhausted` is the
`std::range_error` actually thrown by `,` on an empty input buffer.  The
`...UB` tags mark operations whose C++ behavior is undefined — the real
code raises no condition there at all. -/
inductive Err where
  | inputExhausted : Err
  | emptyStackUB : Err
  | memUB : Err
deriving DecidableEq

/-- State of a `Brainfuck::DynamicInterpreter` (growable tape): the fields
inherited from `Interpreter` (`output`, `input`, `code`, `position`,
`active_cell`, `loops`) plus its own `std::vector<char> cells`.  The head
of `loops` is the top of the `std::stack`. -/
structure DynamicInterpreter where
  output : List Nat
  input : List Nat
  code : List Char
  position : Nat
  active_cell : Nat
  loops : List Nat
  cells : List Nat
deriving DecidableEq

namespace DynamicInterpreter

/-- A freshly constructed `DynamicInterpreter(std::string s)`: empty
buffers, `active_cell = 0` (in-class initializer), empty `cells` vector,
empty loop stack.  (`position` is uninitialized in C++ until `reset`; the
embedding uses 0, and every run resets it before use.) -/
def ofCode (c : List Char) : DynamicInterpreter :=
  { output := [], input := [], code := c, position := 0, active_cell := 0,
    loops := [], cells := [] }

/-- `code[position]`, the instruction character the next `step` dispatches
on. -/
def cur (s : DynamicInterpreter) : Char :=
  s.code.getD s.position (Char.ofNat 0)

/-- The `position++` every `step` performs after its `switch`. -/
def adv (s : DynamicInterpreter) : DynamicInterpreter :=
  { s with position := s.position + 1 }

/-- `DynamicInterpreter::step()`: one `switch( code[position] )` dispatch
followed by `position++`.  Cell accesses `cells[active_cell]` out of range,
and `loops.pop()`/`loops.top()` on an empty stack, are undefined behavior
in the C++ code and are modelled as `UB` errors.  Note that in the `>` case
`cells.size() - 1` is `size_t` arithmetic; every state the theorems below
touch has a nonempty `cells`, where `Nat` subtraction agrees with it. -/
def step (s : DynamicInterpreter) : Except (Err × DynamicInterpreter) DynamicInterpreter :=
  if cur s = '+' then
    match s.cells.get? s.active_cell with
    | some v => .ok (adv { s with cells := s.cells.set s.active_cell ((v + 1) % 256) })
    | none => .error (.memUB, s)
  else if cur s = '-' then
    match s.cells.get? s.active_cell with
    | some v => .ok (adv { s with cells := s.cells.set s.active_cell ((v + 255) % 256) })
    | none => .error (.memUB, s)
  else if cur s = '<' then
    .ok (adv { s with active_cell := if s.active_cell > 0 then s.active_cell - 1 else s.active_cell })
  else if cur s = '>' then
    .ok (adv { s with
      cells := if s.active_cell = s.cells.length - 1 then s.cells ++ [0] else s.cells
      active_cell := s.active_cell + 1 })
  else if cur s = '[' then
    .ok (adv { s with loops := s.position :: s.loops })
  else if cur s = ']' then
    match s.cells.get? s.active_cell with
    | some v =>
      if v = 0 then
        match s.loops with
        | [] => .error (.emptyStackUB, s)
        | _ :: rest => .ok (adv { s with loops := rest })
      else
        match s.loops with
        | [] => .error (.emptyStackUB, s)
        | p :: _ => .ok (adv { s with position := p })
    | none => .error (.memUB, s)
  else if cur s = '.' then
    match s.cells.get? s.active_cell with
    | some v => .ok (adv { s with output := s.output ++ [v] })
    | none => .error (.memUB, s)
  else if cur s = ',' then
    match s.input with
    | [] => .error (.inputExhausted, s)
    | b :: rest =>
      match s.cells.get? s.active_cell with
      | some _ => .ok (adv { s with cells := s.cells.set s.active_cell (b % 256), input := rest })
      | none => .error (.memUB, s)
  else
    .ok (adv s)

/-- `DynamicInterpreter::reset()`: `position = 0; cells = { 0 };
output = ""; input = "";`.  It does NOT touch `active_cell` or `loops`. -/
def reset (s : DynamicInterpreter) : DynamicInterpreter :=
  { s with position := 0, cells := [0], output := [], input := [] }

/-- The `while( position < code.length() ) step();` driver loop, with
fuel.  `some (.ok t)` : loop finished normally in state `t`;
`some (.error e)` : a step threw (or hit UB); `none` : out of fuel. -/
def run : Nat → DynamicInterpreter → Option (Except (Err × DynamicInterpreter) DynamicInterpreter)
  | 0, s => if s.position < s.code.length then none else some (.ok s)
  | fuel + 1, s =>
    if s.position < s.code.length then
      match s.step with
      | .ok t => run fuel t
      | .error e => some (.error e)
    else some (.ok s)

/-- `DynamicInterpreter::interpret( std::string in )`: `input = in;` then
`reset();` (which clears `input` again), then the driver loop. -/
def interpret (s : DynamicInterpreter) (inp : List Nat) (fuel : Nat) :
    Option (Except (Err × DynamicInterpreter) DynamicInterpreter) :=
  run fuel (reset { s with input := inp })

/-- Exactly `n` consecutive calls to `step()` (the single-step primitive),
stopping early on a throw/UB. -/
def stepN : Nat → DynamicInterpreter → Except (Err × DynamicInterpreter) DynamicInterpreter
  | 0, s => .ok s
  | n + 1, s =>
    match s.step with
    | .ok t => stepN n t
    | .error e => .error e

/-- The driver loop again, threading a running maximum of every visited
state's `active_cell` (the initial state's pointer and the final state's
pointer included).  Used to state the growable-tape length invariant. -/
def stepsMax : Nat → DynamicInterpreter → Nat → Option (DynamicInterpreter × Nat)
  | 0, s, m => some (s, max m s.active_cell)
  | n + 1, s, m =>
    match s.step with
    | .ok t => stepsMax n t (max m s.active_cell)
    | .error _ => none

/-- Error outcomes of `DynamicInterpreter::getValue(size_t i)`.
`outOfBounds` is the `std::range_error("Out of bounds")` the guard throws;
`pastEndUB` marks the undefined past-the-end read `cells[cells.size()]`
that the off-by-one guard `i > cells.size()` lets through at
`i == cells.size()`. -/
inductive GetErr where
  | outOfBounds : GetErr
  | pastEndUB : GetErr
deriving DecidableEq

/-- `DynamicInterpreter::getValue(size_t i)`: throws "Out of bounds" iff
`i > cells.size()`, then returns `cells[i]` (undefined behavior when
`i == cells.size()`). -/
def getValue (s : DynamicInterpreter) (i : Nat) : Except GetErr Nat :=
  if i > s.cells.length then .error .outOfBounds
  else
    match s.cells.get? i with
    | some v => .ok v
    | none => .error .pastEndUB

end DynamicInterpreter

/-- `2 ^ 64`, the modulus of the `size_t` arithmetic the fixed-width
engine performs on `active_cell` without any bounds check. -/
def sizeTMod : Nat := 18446744073709551616

/-- State of a `Brainfuck::PerformanceInterpreter` (fixed-width tape): the
inherited fields plus the `unsigned char* bytes` buffer of length `size`
(`bytes.length = size` throughout). -/
structure PerformanceInterpreter where
  output : List Nat
  input : List Nat
  code : List Char
  position : Nat
  active_cell : Nat
  loops : List Nat
  bytes : List Nat
  size : Nat
deriving DecidableEq

namespace PerformanceInterpreter

/-- A freshly constructed `PerformanceInterpreter(std::string s, size_t
width)`: `bytes` is `width` zeroed cells. -/
def ofCode (c : List Char) (width : Nat) : PerformanceInterpreter :=
  { output := [], input := [], code := c, position := 0, active_cell := 0,
    loops := [], bytes := List.replicate width 0, size := width }

/-- `code[position]` for the fixed-width engine. -/
def cur (s : PerformanceInterpreter) : Char :=
  s.code.getD s.position (Char.ofNat 0)

/-- The trailing `position++` of `PerformanceInterpreter::step()`. -/
def adv (s : PerformanceInterpreter) : PerformanceInterpreter :=
  { s with position := s.position + 1 }

/-- `PerformanceInterpreter::step()`.  `<` and `>` move `active_cell` with
unchecked `size_t` arithmetic ("This version has no hand holds"):
decrementing 0 wraps to `2^64 - 1`.  Accesses `bytes[active_cell]` with
`active_cell >= size` are undefined behavior, modelled as `memUB`. -/
def step (s : PerformanceInterpreter) : Except (Err × PerformanceInterpreter) PerformanceInterpreter :=
  if cur s = '+' then
    match s.bytes.get? s.active_cell with
    | some v => .ok (adv { s with bytes := s.bytes.set s.active_cell ((v + 1) % 256) })
    | none => .error (.memUB, s)
  else if cur s = '-' then
    match s.bytes.get? s.active_cell with
    | some v => .ok (adv { s with bytes := s.bytes.set s.active_cell ((v + 255) % 256) })
    | none => .error (.memUB, s)
  else if cur s = '<' then
    .ok (adv { s with active_cell := (s.active_cell + (sizeTMod - 1)) % sizeTMod })
  else if cur s = '>' then
    .ok (adv { s with active_cell := (s.active_cell + 1) % sizeTMod })
  else if cur s = '[' then
    .ok (adv { s with loops := s.position :: s.loops })
  else if cur s = ']' then
    match s.bytes.get? s.active_cell with
    | some v =>
      if v = 0 then
        match s.loops with
        | [] => .error (.emptyStackUB, s)
        | _ :: rest => .ok (adv { s with loops := rest })
      else
        match s.loops with
        | [] => .error (.emptyStackUB, s)
        | p :: _ => .ok (adv { s with position := p })
    | none => .error (.memUB, s)
  else if cur s = '.' then
    match s.bytes.get? s.active_cell with
    | some v => .ok (adv { s with output := s.output ++ [v] })
    | none => .error (.memUB, s)
  else if cur s = ',' then
    match s.input with
    | [] => .error (.inputExhausted, s)
    | b :: rest =>
      match s.bytes.get? s.active_cell with
      | some _ => .ok (adv { s with bytes := s.bytes.set s.active_cell (b % 256), input := rest })
      | none => .error (.memUB, s)
  else
    .ok (adv s)

/-- `PerformanceInterpreter::reset()`: `position = 0; active_cell = 0;`
reallocate and zero `bytes`, clear `output` and `input`.  It does NOT
clear `loops`. -/
def reset (s : PerformanceInterpreter) : PerformanceInterpreter :=
  { s with
    position := 0
    active_cell := 0
    bytes := List.replicate s.size 0
    output := []
    input := [] }

/-- The `while( position < code.length() ) step();` driver loop with
fuel, fixed-width engine. -/
def run : Nat → PerformanceInterpreter → Option (Except (Err × PerformanceInterpreter) PerformanceInterpreter)
  | 0, s => if s.position < s.code.length then none else some (.ok s)
  | fuel + 1, s =>
    if s.position < s.code.length then
      match s.step with
      | .ok t => run fuel t
      | .error e => some (.error e)
    else some (.ok s)

/-- `PerformanceInterpreter::interpret(std::string in)`: `input = in;`
then `reset();` (which clears `input` again), then the driver loop. -/
def interpret (s : PerformanceInterpreter) (inp : List Nat) (fuel : Nat) :
    Option (Except (Err × PerformanceInterpreter) PerformanceInterpreter) :=
  run fuel (reset { s with input := inp })

end PerformanceInterpreter

end Brainfuck

/-!  ## Single-step equation lemmas

One lemma per instruction branch of `step`, for each engine, obtained by
unfolding the `switch` dispatch.  These are shared by the claim theorems
below. -/

namespace Brainfuck

namespace DynamicInterpreter

theorem step_plus (s : DynamicInterpreter) (v : Nat) (h : cur s = '+')
    (hv : s.cells.get? s.active_cell = some v) :
    s.step = .ok { s with cells := s.cells.set s.active_cell ((v + 1) % 256),
                          position := s.position + 1 } := by
  unfold step; rw [h, hv]; rfl

theorem step_minus (s : DynamicInterpreter) (v : Nat) (h : cur s = '-')
    (hv : s.cells.get? s.active_cell = some v) :
    s.step = .ok { s with cells := s.cells.set s.active_cell ((v + 255) % 256),
                          position := s.position + 1 } := by
  unfold step; rw [h, hv]; rfl

theorem step_left (s : DynamicInterpreter) (h : cur s = '<') :
    s.step = .ok { s with
      active_cell := if s.active_cell > 0 then s.active_cell - 1 else s.active_cell
      position := s.position + 1 } := by
  unfold step; rw [h]; rfl

theorem step_right (s : DynamicInterpreter) (h : cur s = '>') :
    s.step = .ok { s with
      cells := if s.active_cell = s.cells.length - 1 then s.cells ++ [0] else s.cells
      active_cell := s.active_cell + 1
      position := s.position + 1 } := by
  unfold step; rw [h]; rfl

theorem step_open (s : DynamicInterpreter) (h : cur s = '[') :
    s.step = .ok { s with loops := s.position :: s.loops, position := s.position + 1 } := by
  unfold step; rw [h]; rfl

theorem step_close_pop (s : DynamicInterpreter) (p : Nat) (rest : List Nat)
    (h : cur s = ']') (hv : s.cells.get? s.active_cell = some 0)
    (hl : s.loops = p :: rest) :
    s.step = .ok { s with loops := rest, position := s.position + 1 } := by
  unfold step; rw [h, hv, hl]; rfl

theorem step_close_jump (s : DynamicInterpreter) (p : Nat) (rest : List Nat) (v : Nat)
    (h : cur s = ']') (hv : s.cells.get? s.active_cell = some v) (hv0 : v ≠ 0)
    (hl : s.loops = p :: rest) :
    s.step = .ok { s with position := p + 1 } := by
  unfold step; rw [h, hv, hl]; simp [hv0, adv]

theorem step_dot (s : DynamicInterpreter) (v : Nat) (h : cur s = '.')
    (hv : s.cells.get? s.active_cell = some v) :
    s.step = .ok { s with output := s.output ++ [v], position := s.position + 1 } := by
  unfold step; rw [h, hv]; rfl

theorem step_comma_empty (s : DynamicInterpreter) (h : cur s = ',') (hi : s.input = []) :
    s.step = .error (.inputExhausted, s) := by
  unfold step; rw [h, hi]; rfl

theorem step_comma (s : DynamicInterpreter) (b : Nat) (rest : List Nat) (v : Nat)
    (h : cur s = ',') (hi : s.input = b :: rest)
    (hv : s.cells.get? s.active_cell = some v) :
    s.step = .ok { s with cells := s.cells.set s.active_cell (b % 256)
                          input := rest
                          position := s.position + 1 } := by
  unfold step; rw [h, hi, hv]; rfl

end DynamicInterpreter

namespace PerformanceInterpreter

theorem pstep_plus (s : PerformanceInterpreter) (v : Nat) (h : cur s = '+')
    (hv : s.bytes.get? s.active_cell = some v) :
    s.step = .ok { s with bytes := s.bytes.set s.active_cell ((v + 1) % 256),
                          position := s.position + 1 } := by
  unfold step; rw [h, hv]; rfl

theorem pstep_minus (s : PerformanceInterpreter) (v : Nat) (h : cur s = '-')
    (hv : s.bytes.get? s.active_cell = some v) :
    s.step = .ok { s with bytes := s.bytes.set s.active_cell ((v + 255) % 256),
                          position := s.position + 1 } := by
  unfold step; rw [h, hv]; rfl

theorem pstep_left (s : PerformanceInterpreter) (h : cur s = '<') :
    s.step = .ok { s with active_cell := (s.active_cell + (sizeTMod - 1)) % sizeTMod
                          position := s.position + 1 } := by
  unfold step; rw [h]; rfl

theorem pstep_right (s : PerformanceInterpreter) (h : cur s = '>') :
    s.step = .ok { s with active_cell := (s.active_cell + 1) % sizeTMod
                          position := s.position + 1 } := by
  unfold step; rw [h]; rfl

theorem pstep_comma_empty (s : PerformanceInterpreter) (h : cur s = ',') (hi : s.input = []) :
    s.step = .error (.inputExhausted, s) := by
  unfold step; rw [h, hi]; rfl

theorem pstep_comma (s : PerformanceInterpreter) (b : Nat) (rest : List Nat) (v : Nat)
    (h : cur s = ',') (hi : s.input = b :: rest)
    (hv : s.bytes.get? s.active_cell = some v) :
    s.step = .ok { s with bytes := s.bytes.set s.active_cell (b % 256)
                          input := rest
                          position := s.position + 1 } := by
  unfold step; rw [h, hi, hv]; rfl

end PerformanceInterpreter

end Brainfuck

/-!  ## Inversion lemmas for an arbitrary successful step

Shared by the invariant claims: how one `step` can change the tape. -/

namespace Brainfuck

namespace DynamicInterpreter

/-- If the pointer is inside the tape, a successful step makes the tape
exactly long enough for the larger of the old tape and the new pointer:
only the `>`-at-the-end branch appends (one zero cell), everything else
preserves the length. -/
theorem step_length (s t : DynamicInterpreter)
    (hp : s.active_cell < s.cells.length) (h : s.step = .ok t) :
    t.cells.length = max s.cells.length (t.active_cell + 1) := by
  unfold step at h
  repeat' split at h
  all_goals first
    | exact Except.noConfusion h
    | (injection h with h; subst h;
       simp only [adv, List.length_set, List.length_append, List.length_cons, List.length_nil];
       omega)

/-- A successful step keeps every cell below 256: the only stores are
`(v + 1) % 256`, `(v + 255) % 256`, `b % 256` and the appended zero. -/
theorem step_cells_bounded (s t : DynamicInterpreter)
    (hb : ∀ v ∈ s.cells, v < 256) (h : s.step = .ok t) :
    ∀ v ∈ t.cells, v < 256 := by
  unfold step at h
  repeat' split at h
  all_goals first
    | exact Except.noConfusion h
    | (injection h with h; subst h;
       intro v hv;
       first
       | exact hb v hv
       | (rcases List.mem_or_eq_of_mem_set hv with hv2 | rfl
          · exact hb v hv2
          · exact Nat.mod_lt _ (by omega))
       | (rcases List.mem_append.mp hv with hv2 | hv2
          · exact hb v hv2
          · simp at hv2; omega))

/-- Length invariant of the growable tape along a whole run: starting from
a state whose tape is exactly one longer than the largest pointer value
seen so far (`m` accumulates it), after any number of steps the tape
length is still (max pointer reached) + 1, the maximum never decreases,
and the tape never shrinks. -/
theorem stepsMax_len : ∀ (n : Nat) (s : DynamicInterpreter) (m : Nat)
    (t : DynamicInterpreter) (m' : Nat),
    s.cells.length = max m s.active_cell + 1 →
    stepsMax n s m = some (t, m') →
    t.cells.length = m' + 1 ∧ m ≤ m' ∧ s.cells.length ≤ t.cells.length := by
  intro n
  induction n with
  | zero =>
    intro s m t m' hI h
    unfold stepsMax at h
    injection h with h
    injection h with h1 h2
    subst h1; subst h2
    omega
  | succ n ih =>
    intro s m t m' hI h
    unfold stepsMax at h
    cases hs : s.step with
    | error e => rw [hs] at h; exact Option.noConfusion h
    | ok u =>
      rw [hs] at h
      have hp : s.active_cell < s.cells.length := by omega
      have hlen := step_length s u hp hs
      have hIu : u.cells.length = max (max m s.active_cell) u.active_cell + 1 := by omega
      obtain ⟨a, b, c⟩ := ih u (max m s.active_cell) t m' hIu h
      exact ⟨a, by omega, by omega⟩

end DynamicInterpreter

namespace PerformanceInterpreter

/-- A successful step of the fixed-width engine keeps every tape byte
below 256. -/
theorem pstep_bytes_bounded (s t : PerformanceInterpreter)
    (hb : ∀ v ∈ s.bytes, v < 256) (h : s.step = .ok t) :
    ∀ v ∈ t.bytes, v < 256 := by
  unfold step at h
  repeat' split at h
  all_goals first
    | exact Except.noConfusion h
    | (injection h with h; subst h;
       intro v hv;
       first
       | exact hb v hv
       | (rcases List.mem_or_eq_of_mem_set hv with hv2 | rfl
          · exact hb v hv2
          · exact Nat.mod_lt _ (by omega)))

end PerformanceInterpreter

end Brainfuck

/-!  ## Claim theorems -/

namespace Brainfuck

/-- Claim C1 (refuted by the code): run-to-completion with a caller-supplied
input string is supposed to seed the input buffer, so `,.` with input `"A"`
(byte 65) should output `"A"` and leave the input empty.  In the code,
`interpret(std::string in)` assigns `input = in` and then calls `reset()`,
which sets `input = ""` again, so the seed is discarded before the first
step: the run of `,.` aborts with the end-of-input `range_error`
(*InputExhausted*) having produced no output.  Both engines contain the
same slip; this theorem evaluates both at the failing input. -/
theorem C1_input_seed_clobbered :
    (∃ t, (DynamicInterpreter.ofCode ",.".toList).interpret [65] 9 =
        some (.error (.inputExhausted, t)) ∧ t.output = [] ∧ t.input = []) ∧
    (∃ t, (PerformanceInterpreter.ofCode ",.".toList 4).interpret [65] 9 =
        some (.error (.inputExhausted, t)) ∧ t.output = [] ∧ t.input = []) :=
  ⟨⟨_, rfl, rfl, rfl⟩, ⟨_, rfl, rfl, rfl⟩⟩

/-- Claim C2 (refuted by the code): `reset` is supposed to restore tape,
cursor, cell pointer, loop index and output to their initial state.  The
code's `reset` clears `position`, the tape and the output/input buffers,
but neither engine's `reset` clears the `loops` stack, and the growable
engine's `reset` does not restore `active_cell` either: after running `[`
to completion, `reset` leaves the loop index still holding position 0, and
after running `>`, the growable engine's `reset` leaves the pointer at 1
on a freshly shrunk one-cell tape.  (The source text is preserved, as
claimed.) -/
theorem C2_reset_keeps_pointer_and_loops :
    (∃ t, (DynamicInterpreter.ofCode "[".toList).interpret [] 3 = some (.ok t) ∧
        t.reset.loops = [0] ∧ t.reset.code = "[".toList) ∧
    (∃ t, (DynamicInterpreter.ofCode ">".toList).interpret [] 3 = some (.ok t) ∧
        t.reset.active_cell = 1 ∧ t.reset.cells = [0]) ∧
    (∃ t, (PerformanceInterpreter.ofCode "[".toList 4).interpret [] 3 = some (.ok t) ∧
        t.reset.loops = [0]) :=
  ⟨⟨_, rfl, rfl, rfl⟩, ⟨_, rfl, rfl, rfl⟩, ⟨_, rfl, rfl⟩⟩

/-- Claim C3 (refuted by the code): a close bracket with an empty loop
index is supposed to fail with a defined *UnbalancedLoop* condition.  The
code performs `loops.pop()` (cell zero) or `loops.top()` (cell nonzero) on
an empty `std::stack`, which is undefined behavior in C++ — no exception
of any kind is raised.  Running `]` alone on a fresh engine (cell 0, empty
stack) hits the undefined empty-stack pop on the very first step, before
any cursor advance; the embedding tags this outcome `emptyStackUB`. -/
theorem C3_close_empty_stack_is_ub :
    (∃ t, (DynamicInterpreter.ofCode "]".toList).interpret [] 3 =
        some (.error (.emptyStackUB, t)) ∧ t.position = 0) ∧
    (∃ t, (PerformanceInterpreter.ofCode "]".toList 4).interpret [] 3 =
        some (.error (.emptyStackUB, t)) ∧ t.position = 0) :=
  ⟨⟨_, rfl, rfl⟩, ⟨_, rfl, rfl⟩⟩

/-- Claim C4, counterexample.  The claim says that whenever a close
bracket jumps back, the matching open bracket is executed again (pushing
its position again) before the loop body re-runs.  Run `++[-]` from the
fresh reset state: after 4 steps the engine is at the `]` (position 4)
with cell value 1 and loop stack `[2]`.  The 5th step takes the backward
jump, and the resulting cursor is 3 — the first instruction of the loop
body, one past the open bracket at position 2 — with the stack still
exactly `[2]`: the open bracket is skipped, not re-executed, and nothing
is pushed again.  Completing the run (7 steps) ends with an empty stack
and cursor 5, confirming a single push and a single pop for two passes
through the body. -/
theorem C4_counterexample :
    (∃ t, DynamicInterpreter.stepN 5 ((DynamicInterpreter.ofCode "++[-]".toList).reset) = .ok t ∧
        t.position = 3 ∧ t.loops = [2] ∧ t.cells = [1]) ∧
    (∃ u, DynamicInterpreter.stepN 7 ((DynamicInterpreter.ofCode "++[-]".toList).reset) = .ok u ∧
        u.loops = [] ∧ u.position = 5) :=
  ⟨⟨_, rfl, rfl, rfl, rfl⟩, ⟨_, rfl, rfl, rfl⟩⟩

/-- Claim C4, amended: an open bracket's source position is pushed onto
the loop index every time the open-bracket instruction is executed, and a
backward jump (close bracket with nonzero current cell) leaves the open
position on the stack without popping it; but the jump sets the cursor to
the stored position and the step's trailing `position++` then moves it one
past the open bracket, so execution resumes at the first instruction of
the loop body and the open bracket is NOT re-executed on loop iterations
(its position is pushed once per loop entry, not once per iteration). -/
theorem C4_amended :
    (∀ s : DynamicInterpreter, DynamicInterpreter.cur s = '[' →
        s.step = .ok { s with loops := s.position :: s.loops, position := s.position + 1 }) ∧
    (∀ (s : DynamicInterpreter) (p : Nat) (rest : List Nat) (v : Nat),
        DynamicInterpreter.cur s = ']' → s.cells.get? s.active_cell = some v → v ≠ 0 →
        s.loops = p :: rest →
        s.step = .ok { s with position := p + 1 }) :=
  ⟨DynamicInterpreter.step_open, DynamicInterpreter.step_close_jump⟩

/-- Witness for C4: the amended claim applied at concrete states.  A `[`
at position 0 pushes 0; a `]` at position 3 of `+[-]` with cell 1 and
stack `[1]` jumps to cursor 2 (one past the `[` at 1) keeping the stack. -/
theorem C4_witness :
    DynamicInterpreter.step
        { output := [], input := [], code := "[".toList, position := 0,
          active_cell := 0, loops := [], cells := [0] } =
      .ok { output := [], input := [], code := "[".toList, position := 1,
            active_cell := 0, loops := [0], cells := [0] } ∧
    DynamicInterpreter.step
        { output := [], input := [], code := "+[-]".toList, position := 3,
          active_cell := 0, loops := [1], cells := [1] } =
      .ok { output := [], input := [], code := "+[-]".toList, position := 2,
            active_cell := 0, loops := [1], cells := [1] } :=
  ⟨C4_amended.1 _ rfl, C4_amended.2 _ 1 [] 1 rfl rfl (by decide) rfl⟩

/-- Claim C5, counterexample.  The claim calls `[-]` on a cell holding 0 a
"zero-iteration no-op (the loop body is never executed)".  The open
bracket of this interpreter never tests the cell — it only pushes — so the
loop is entered unconditionally: two steps into the run from the fresh
state (cell 0) the body's `-` has already executed, wrapping the cell to
255. -/
theorem C5_counterexample :
    ∃ t, DynamicInterpreter.stepN 2 ((DynamicInterpreter.ofCode "[-]".toList).reset) = .ok t ∧
      t.cells = [255] ∧ t.loops = [0] ∧ t.position = 2 :=
  ⟨_, rfl, rfl, rfl, rfl⟩

set_option maxRecDepth 10000 in
/-- Claim C5, amended: running `[-]` to completion on an engine whose
current cell holds 5 terminates (11 steps) and leaves the cell at 0;
running it on an engine whose current cell holds 0 also terminates with
the cell at 0, but it is not a zero-iteration no-op: the loop is entered
and the body executes 256 times (the cell wraps 0 → 255 → … → 0), the
whole run taking exactly 513 steps (1 push + 256 · (`-` then `]`)), not
the 2 steps a skipped loop would take.  After 2 steps the cell holds 255
(body already run); after 512 steps the run is still at the `]`; the
513th step finishes it. -/
theorem C5_amended :
    (∃ t, DynamicInterpreter.run 20
        { (DynamicInterpreter.ofCode "[-]".toList).reset with cells := [5] } =
        some (.ok t) ∧ t.cells = [0] ∧ t.position = 3) ∧
    (∃ t, DynamicInterpreter.run 600 ((DynamicInterpreter.ofCode "[-]".toList).reset) =
        some (.ok t) ∧ t.cells = [0] ∧ t.position = 3) ∧
    (∃ t, DynamicInterpreter.stepN 2 ((DynamicInterpreter.ofCode "[-]".toList).reset) = .ok t ∧
        t.cells = [255]) ∧
    (∃ t, DynamicInterpreter.stepN 512 ((DynamicInterpreter.ofCode "[-]".toList).reset) = .ok t ∧
        t.position = 2) ∧
    (∃ t, DynamicInterpreter.stepN 513 ((DynamicInterpreter.ofCode "[-]".toList).reset) = .ok t ∧
        t.position = 3) :=
  ⟨⟨{ output := [], input := [], code := "[-]".toList, position := 3,
      active_cell := 0, loops := [], cells := [0] }, rfl, rfl, rfl⟩,
   ⟨{ output := [], input := [], code := "[-]".toList, position := 3,
      active_cell := 0, loops := [], cells := [0] }, rfl, rfl, rfl⟩,
   ⟨{ output := [], input := [], code := "[-]".toList, position := 2,
      active_cell := 0, loops := [0], cells := [255] }, rfl, rfl⟩,
   ⟨{ output := [], input := [], code := "[-]".toList, position := 2,
      active_cell := 0, loops := [0], cells := [0] }, rfl, rfl⟩,
   ⟨{ output := [], input := [], code := "[-]".toList, position := 3,
      active_cell := 0, loops := [], cells := [0] }, rfl, rfl⟩⟩

/-- Claim C6 (refuted by the code): the fixed-width engine is supposed to
keep the pointer in `[0, N)` and raise *OutOfBounds* on any movement that
would leave the range.  `PerformanceInterpreter::step` has no bounds check
at all ("This version has no hand holds"): on a width-1 engine, `>` moves
the pointer to 1 (= N, outside `[0, 1)`) and the run completes with no
error of any kind; `<` at pointer 0 wraps the `size_t` to
18446744073709551615.  No *OutOfBounds* condition exists anywhere in the
code — a subsequent cell access at such a pointer is an unchecked
out-of-bounds memory access (undefined behavior). -/
theorem C6_unchecked_pointer_movement :
    (∃ t, (PerformanceInterpreter.ofCode ">".toList 1).interpret [] 3 = some (.ok t) ∧
        t.active_cell = 1 ∧ t.size = 1) ∧
    (∃ t, (PerformanceInterpreter.ofCode "<".toList 1).interpret [] 3 = some (.ok t) ∧
        t.active_cell = 18446744073709551615) :=
  ⟨⟨_, rfl, rfl, rfl⟩, ⟨_, rfl, rfl⟩⟩

end Brainfuck

namespace Brainfuck

/-- Claim C7 (confirmed): for both engines, executing `,` with an empty
input buffer fails with the *InputExhausted* condition (`range_error`),
and the failing step leaves the whole state untouched — the error carries
`s` itself, so no cell is mutated, nothing is appended to the output, and
the cursor does not advance (execution cannot continue past the
instruction; the driver loop returns the error immediately).  With a
nonempty input, `,` stores the front byte into the current cell and
removes it from the buffer.  In particular `,.` run with empty input fails
with *InputExhausted* before producing any output, on both engines. -/
theorem C7_read_semantics :
    (∀ s : DynamicInterpreter, DynamicInterpreter.cur s = ',' → s.input = [] →
        s.step = .error (.inputExhausted, s)) ∧
    (∀ s : PerformanceInterpreter, PerformanceInterpreter.cur s = ',' → s.input = [] →
        s.step = .error (.inputExhausted, s)) ∧
    (∀ (s : DynamicInterpreter) (b : Nat) (rest : List Nat) (v : Nat),
        DynamicInterpreter.cur s = ',' → s.input = b :: rest →
        s.cells.get? s.active_cell = some v →
        s.step = .ok { s with
          cells := s.cells.set s.active_cell (b % 256)
          input := rest
          position := s.position + 1 }) ∧
    (∀ (s : PerformanceInterpreter) (b : Nat) (rest : List Nat) (v : Nat),
        PerformanceInterpreter.cur s = ',' → s.input = b :: rest →
        s.bytes.get? s.active_cell = some v →
        s.step = .ok { s with
          bytes := s.bytes.set s.active_cell (b % 256)
          input := rest
          position := s.position + 1 }) ∧
    (∃ t, (DynamicInterpreter.ofCode ",.".toList).interpret [] 5 =
        some (.error (.inputExhausted, t)) ∧ t.output = []) ∧
    (∃ t, (PerformanceInterpreter.ofCode ",.".toList 4).interpret [] 5 =
        some (.error (.inputExhausted, t)) ∧ t.output = []) :=
  ⟨DynamicInterpreter.step_comma_empty, PerformanceInterpreter.pstep_comma_empty,
   DynamicInterpreter.step_comma, PerformanceInterpreter.pstep_comma,
   ⟨_, rfl, rfl⟩, ⟨_, rfl, rfl⟩⟩

/-- Witness for C7: both engines reading `,` at a concrete state — with
empty input the step fails with *InputExhausted* and the state (cell `[0]`,
no output, cursor 0) is carried unchanged; with input byte 65 the step
stores 65 in the current cell and consumes the buffer. -/
theorem C7_witness :
    DynamicInterpreter.step
        { output := [], input := [], code := ",".toList, position := 0,
          active_cell := 0, loops := [], cells := [0] } =
      .error (.inputExhausted,
        { output := [], input := [], code := ",".toList, position := 0,
          active_cell := 0, loops := [], cells := [0] }) ∧
    PerformanceInterpreter.step
        { output := [], input := [], code := ",".toList, position := 0,
          active_cell := 0, loops := [], bytes := [0], size := 1 } =
      .error (.inputExhausted,
        { output := [], input := [], code := ",".toList, position := 0,
          active_cell := 0, loops := [], bytes := [0], size := 1 }) ∧
    DynamicInterpreter.step
        { output := [], input := [65], code := ",".toList, position := 0,
          active_cell := 0, loops := [], cells := [0] } =
      .ok { output := [], input := [], code := ",".toList, position := 1,
            active_cell := 0, loops := [], cells := [65] } ∧
    PerformanceInterpreter.step
        { output := [], input := [65], code := ",".toList, position := 0,
          active_cell := 0, loops := [], bytes := [0], size := 1 } =
      .ok { output := [], input := [], code := ",".toList, position := 1,
            active_cell := 0, loops := [], bytes := [65], size := 1 } :=
  ⟨C7_read_semantics.1 _ rfl rfl, C7_read_semantics.2.1 _ rfl rfl,
   C7_read_semantics.2.2.1 _ 65 [] 0 rfl rfl rfl,
   C7_read_semantics.2.2.2.1 _ 65 [] 0 rfl rfl rfl⟩

/-- Claim C8, counterexample.  The claim quantifies over "every state
reachable during a run started from reset", for every engine.  Because
`reset` does not restore `active_cell` (see C2), resetting a previously
used engine gives a state that is itself the start of a run yet violates
the invariant: run `>` to completion (pointer 1, tape `[0, 0]`), then
`reset` — the new run's initial state has a one-cell tape `[0]` with the
pointer at 1, so tape length 1 ≠ (max pointer reached so far) + 1 = 2. -/
theorem C8_counterexample :
    ∃ t, (DynamicInterpreter.ofCode ">".toList).interpret [] 3 = some (.ok t) ∧
      t.reset.position = 0 ∧ t.reset.cells.length = 1 ∧ t.reset.active_cell = 1 :=
  ⟨_, rfl, rfl, rfl, rfl⟩

/-- Claim C8, amended: for the growable engine started from the freshly
constructed engine's reset state (pointer 0, tape `[0]`) — or any state
whose tape length is exactly (max pointer seen) + 1 — every state reached
during the run keeps tape length = (maximum pointer index reached so far)
+ 1, the maximum and the tape length never decrease; `>` appends exactly
one zero cell and only when the pointer sits at the current last index
before moving (otherwise it appends nothing), and `<` at index 0 is a
no-op that leaves the pointer at 0.  (`stepsMax` threads the running
maximum of the pointer over all visited states.) -/
theorem C8_amended :
    (∀ (n : Nat) (s : DynamicInterpreter) (m : Nat) (t : DynamicInterpreter) (m' : Nat),
        s.cells.length = max m s.active_cell + 1 →
        DynamicInterpreter.stepsMax n s m = some (t, m') →
        t.cells.length = m' + 1 ∧ m ≤ m' ∧ s.cells.length ≤ t.cells.length) ∧
    (∀ (c : List Char) (n : Nat) (t : DynamicInterpreter) (m' : Nat),
        DynamicInterpreter.stepsMax n ((DynamicInterpreter.ofCode c).reset) 0 = some (t, m') →
        t.cells.length = m' + 1) ∧
    (∀ s : DynamicInterpreter, DynamicInterpreter.cur s = '>' →
        s.active_cell = s.cells.length - 1 →
        s.step = .ok { s with
          cells := s.cells ++ [0]
          active_cell := s.active_cell + 1
          position := s.position + 1 }) ∧
    (∀ s : DynamicInterpreter, DynamicInterpreter.cur s = '>' →
        ¬(s.active_cell = s.cells.length - 1) →
        s.step = .ok { s with
          active_cell := s.active_cell + 1
          position := s.position + 1 }) ∧
    (∀ s : DynamicInterpreter, DynamicInterpreter.cur s = '<' → s.active_cell = 0 →
        s.step = .ok { s with position := s.position + 1 }) := by
  refine ⟨DynamicInterpreter.stepsMax_len, ?_, ?_, ?_, ?_⟩
  · intro c n t m' h
    exact (DynamicInterpreter.stepsMax_len n ((DynamicInterpreter.ofCode c).reset) 0 t m'
      (by simp [DynamicInterpreter.reset, DynamicInterpreter.ofCode]) h).1
  · intro s h h2
    rw [DynamicInterpreter.step_right s h, if_pos h2]
  · intro s h h2
    rw [DynamicInterpreter.step_right s h, if_neg h2]
  · intro s h h2
    rw [DynamicInterpreter.step_left s h, h2]
    rfl

/-- Witness for C8: the amended claim applied at concrete inputs — the
length/maximum invariant over a 3-step run of `>>` from the fresh reset
state and over a 2-step run of `>`, the two `>` branches at one-cell and
two-cell tapes, and `<` at pointer 0. -/
theorem C8_witness :
    (({ output := [], input := [], code := ">>".toList, position := 3,
        active_cell := 2, loops := [], cells := [0, 0, 0] } : DynamicInterpreter).cells.length
        = 2 + 1 ∧
      (0 : Nat) ≤ 2 ∧
      ((DynamicInterpreter.ofCode ">>".toList).reset).cells.length ≤
        ({ output := [], input := [], code := ">>".toList, position := 3,
           active_cell := 2, loops := [], cells := [0, 0, 0] } : DynamicInterpreter).cells.length) ∧
    ({ output := [], input := [], code := ">".toList, position := 2,
       active_cell := 1, loops := [], cells := [0, 0] } : DynamicInterpreter).cells.length
      = 1 + 1 ∧
    DynamicInterpreter.step
        { output := [], input := [], code := ">".toList, position := 0,
          active_cell := 0, loops := [], cells := [0] } =
      .ok { output := [], input := [], code := ">".toList, position := 1,
            active_cell := 1, loops := [], cells := [0, 0] } ∧
    DynamicInterpreter.step
        { output := [], input := [], code := ">".toList, position := 0,
          active_cell := 0, loops := [], cells := [0, 0] } =
      .ok { output := [], input := [], code := ">".toList, position := 1,
            active_cell := 1, loops := [], cells := [0, 0] } ∧
    DynamicInterpreter.step
        { output := [], input := [], code := "<".toList, position := 0,
          active_cell := 0, loops := [], cells := [0] } =
      .ok { output := [], input := [], code := "<".toList, position := 1,
            active_cell := 0, loops := [], cells := [0] } :=
  ⟨C8_amended.1 3 ((DynamicInterpreter.ofCode ">>".toList).reset) 0
      { output := [], input := [], code := ">>".toList, position := 3,
        active_cell := 2, loops := [], cells := [0, 0, 0] } 2 rfl rfl,
   C8_amended.2.1 ">".toList 2
      { output := [], input := [], code := ">".toList, position := 2,
        active_cell := 1, loops := [], cells := [0, 0] } 1 rfl,
   C8_amended.2.2.1 _ rfl rfl,
   C8_amended.2.2.2.1 _ rfl (by decide),
   C8_amended.2.2.2.2 _ rfl rfl⟩

/-- Claim C9 (confirmed): cell values stay in `[0, 255]` for both engines
— any successful step preserves "all cells < 256", and a reset state
(tape `[0]`, resp. `width` zero bytes) satisfies it, so every state
reachable from a reset does; `+` on a cell holding 255 stores
`(255 + 1) % 256 = 0` and `-` on a cell holding 0 stores
`(0 + 255) % 256 = 255`, on both engines. -/
theorem C9_cell_wraparound :
    (∀ s t : DynamicInterpreter, (∀ v ∈ s.cells, v < 256) → s.step = .ok t →
        ∀ v ∈ t.cells, v < 256) ∧
    (∀ s : DynamicInterpreter, ∀ v ∈ s.reset.cells, v < 256) ∧
    (∀ s t : PerformanceInterpreter, (∀ v ∈ s.bytes, v < 256) → s.step = .ok t →
        ∀ v ∈ t.bytes, v < 256) ∧
    (∀ s : PerformanceInterpreter, ∀ v ∈ s.reset.bytes, v < 256) ∧
    (∀ s : DynamicInterpreter, DynamicInterpreter.cur s = '+' →
        s.cells.get? s.active_cell = some 255 →
        s.step = .ok { s with cells := s.cells.set s.active_cell 0, position := s.position + 1 }) ∧
    (∀ s : DynamicInterpreter, DynamicInterpreter.cur s = '-' →
        s.cells.get? s.active_cell = some 0 →
        s.step = .ok { s with cells := s.cells.set s.active_cell 255, position := s.position + 1 }) ∧
    (∀ s : PerformanceInterpreter, PerformanceInterpreter.cur s = '+' →
        s.bytes.get? s.active_cell = some 255 →
        s.step = .ok { s with bytes := s.bytes.set s.active_cell 0, position := s.position + 1 }) ∧
    (∀ s : PerformanceInterpreter, PerformanceInterpreter.cur s = '-' →
        s.bytes.get? s.active_cell = some 0 →
        s.step = .ok { s with bytes := s.bytes.set s.active_cell 255, position := s.position + 1 }) := by
  refine ⟨DynamicInterpreter.step_cells_bounded, ?_,
          PerformanceInterpreter.pstep_bytes_bounded, ?_, ?_, ?_, ?_, ?_⟩
  · intro s v hv
    simp [DynamicInterpreter.reset] at hv
    omega
  · intro s v hv
    simp [PerformanceInterpreter.reset, List.mem_replicate] at hv
    omega
  · intro s h hv
    rw [DynamicInterpreter.step_plus s 255 h hv]
  · intro s h hv
    rw [DynamicInterpreter.step_minus s 0 h hv]
  · intro s h hv
    rw [PerformanceInterpreter.pstep_plus s 255 h hv]
  · intro s h hv
    rw [PerformanceInterpreter.pstep_minus s 0 h hv]

/-- Witness for C9: the boundedness conjuncts applied at concrete states
and elements (a `+` step on `[7]` yields 8 < 256; the reset tapes contain
0 < 256), and the four wraparound conjuncts at concrete one-cell states:
`+` on 255 gives `[0]`, `-` on 0 gives `[255]`, for both engines. -/
theorem C9_witness :
    (8 : Nat) < 256 ∧ (0 : Nat) < 256 ∧ (7 : Nat) < 256 ∧ (0 : Nat) < 256 ∧
    DynamicInterpreter.step
        { output := [], input := [], code := "+".toList, position := 0,
          active_cell := 0, loops := [], cells := [255] } =
      .ok { output := [], input := [], code := "+".toList, position := 1,
            active_cell := 0, loops := [], cells := [0] } ∧
    DynamicInterpreter.step
        { output := [], input := [], code := "-".toList, position := 0,
          active_cell := 0, loops := [], cells := [0] } =
      .ok { output := [], input := [], code := "-".toList, position := 1,
            active_cell := 0, loops := [], cells := [255] } ∧
    PerformanceInterpreter.step
        { output := [], input := [], code := "+".toList, position := 0,
          active_cell := 0, loops := [], bytes := [255], size := 1 } =
      .ok { output := [], input := [], code := "+".toList, position := 1,
            active_cell := 0, loops := [], bytes := [0], size := 1 } ∧
    PerformanceInterpreter.step
        { output := [], input := [], code := "-".toList, position := 0,
          active_cell := 0, loops := [], bytes := [0], size := 1 } =
      .ok { output := [], input := [], code := "-".toList, position := 1,
            active_cell := 0, loops := [], bytes := [255], size := 1 } :=
  ⟨C9_cell_wraparound.1
      { output := [], input := [], code := "+".toList, position := 0,
        active_cell := 0, loops := [], cells := [7] }
      { output := [], input := [], code := "+".toList, position := 1,
        active_cell := 0, loops := [], cells := [8] }
      (by decide) rfl 8 (by decide),
   C9_cell_wraparound.2.1
      { output := [], input := [], code := [], position := 0,
        active_cell := 0, loops := [], cells := [] } 0 (by decide),
   C9_cell_wraparound.2.2.1
      { output := [], input := [], code := "+".toList, position := 0,
        active_cell := 0, loops := [], bytes := [6], size := 1 }
      { output := [], input := [], code := "+".toList, position := 1,
        active_cell := 0, loops := [], bytes := [7], size := 1 }
      (by decide) rfl 7 (by decide),
   C9_cell_wraparound.2.2.2.1
      { output := [], input := [], code := [], position := 0,
        active_cell := 0, loops := [], bytes := [1, 1], size := 2 } 0 (by decide),
   C9_cell_wraparound.2.2.2.2.1 _ rfl rfl,
   C9_cell_wraparound.2.2.2.2.2.1 _ rfl rfl,
   C9_cell_wraparound.2.2.2.2.2.2.1 _ rfl rfl,
   C9_cell_wraparound.2.2.2.2.2.2.2 _ rfl rfl⟩

/-- Claim C10 (confirmed): the growable engine's point query
`getValue(size_t i)` throws its "Out of bounds" `range_error` exactly when
`i > cells.size()` — an off-by-one guard, so the query at
`i = cells.size()` (one past the last cell) is accepted by the guard
rather than rejected; what it then performs is the undefined past-the-end
read `cells[cells.size()]` (tagged `pastEndUB` here), not the
out-of-bounds error. -/
theorem C10_getValue_guard_offbyone :
    (∀ (s : DynamicInterpreter) (i : Nat),
        s.getValue i = .error .outOfBounds ↔ i > s.cells.length) ∧
    (∀ s : DynamicInterpreter,
        s.getValue s.cells.length = .error .pastEndUB) := by
  constructor
  · intro s i
    unfold DynamicInterpreter.getValue
    split_ifs with hgt
    · simp [hgt]
    · cases hg : s.cells.get? i <;> simp [hgt]
  · intro s
    unfold DynamicInterpreter.getValue
    rw [if_neg (by omega), List.get?_eq_none.mpr (Nat.le_refl _)]

/-- Witness for C10: on a one-cell tape, `getValue 2` (2 > 1) throws the
out-of-bounds error, and `getValue 1` (= the tape length) is let through
the guard into the undefined past-the-end read. -/
theorem C10_witness :
    DynamicInterpreter.getValue
        { output := [], input := [], code := [], position := 0,
          active_cell := 0, loops := [], cells := [0] } 2 =
      .error .outOfBounds ∧
    DynamicInterpreter.getValue
        { output := [], input := [], code := [], position := 0,
          active_cell := 0, loops := [], cells := [0] } 1 =
      .error .pastEndUB :=
  ⟨(C10_getValue_guard_offbyone.1 _ 2).mpr (by decide),
   C10_getValue_guard_offbyone.2 _⟩

end Brainfuck
